import Mathlib

/-!
Verification of the DisneyAlerts dining-alert bot (src/main.py, src/Main.py)
against its natural-language specification.

The embedding translates the relevant Python code into Lean:
sqlite state becomes an explicit `DB` value, the discord/aiohttp side
effects become explicit outcome parameters (an `Env` assigning to every
request the result of its availability check, user lookup and DM send),
and Python exceptions become `Except PyExn`.
-/

namespace DisneyAlerts

/-- Python exceptions that the translated code distinguishes. -/
inductive PyExn where
  | forbidden
  | nameError (n : String)
  | jsonDecodeError
  | other (msg : String)
  deriving Repr, DecidableEq

/-- A parsed JSON value, as returned by `response.json()` in aiohttp.
Python `None` is `null`; dicts are association lists. -/
inductive JValue where
  | null
  | bool (b : Bool)
  | num (n : Int)
  | str (s : String)
  | arr (items : List JValue)
  | obj (fields : List (String × JValue))

/-- Python truthiness of a JSON value (used by the `or` chains in the source). -/
def JValue.truthy : JValue → Bool
  | .null => false
  | .bool b => b
  | .num n => n != 0
  | .str s => !s.isEmpty
  | .arr items => !items.isEmpty
  | .obj fields => !fields.isEmpty

/-- Python `a or b` on JSON values: `b` when `a` is falsy. -/
def pyOr (a b : JValue) : JValue := if a.truthy then a else b

/-- Python `dict.get(k)` (missing key gives `None`); `get` on a non-dict does
not occur in the translated paths and is mapped to `None`. -/
def JValue.get : JValue → String → JValue
  | .obj fields, k =>
    (match fields.find? (fun f => f.1 == k) with
     | some f => f.2
     | none => .null)
  | _, _ => .null

/-- Python `dict.get(k, default)`. -/
def JValue.getD : JValue → String → JValue → JValue
  | .obj fields, k, _dflt =>
    (match fields.find? (fun f => f.1 == k) with
     | some f => f.2
     | none => _dflt)
  | _, _, dflt => dflt

/-- Python `str()` of a JSON value, used by the source's
`str(item_restaurant_id) == str(restaurant_id)` comparison and in f-string
interpolation. The rendering of containers is abstracted (the translated code
only ever compares such a rendering with a plain restaurant-id string or
embeds it in a URL default). -/
def JValue.pyStr : JValue → String
  | .null => "None"
  | .bool b => if b then "True" else "False"
  | .num n => toString n
  | .str s => s
  | .arr _ => "<list>"
  | .obj _ => "<dict>"

/-- One available reservation time slot, as appended to `available_times`
by `DisneyWebScraper.check_availability` (src/main.py:685-718). -/
structure Slot where
  time : JValue
  slot_id : JValue
  url : JValue
  restaurant_id : String
  location_id : String

/-- `self.base_url` (src/main.py:34). -/
def base_url : String := "https://disneyworld.disney.go.com"

/-- The `all_location_ids` list that `check_availability` scans
(src/main.py:560-609). -/
def all_location_ids : List String :=
  ["80007944", "80007838", "80007998", "80007823",
   "80007875",
   "80007617", "80007539", "80007668", "80007560", "80007559", "80007400",
   "80007724", "80007834", "80010170",
   "80007622", "80007540", "80007669", "80007725", "80007401", "80007561",
   "80007835", "80010201",
   "80007623", "80007624", "80007809", "80007810", "80010162",
   "80007813", "80007814", "80007815", "80010161",
   "80007816", "80007889", "80007890", "80010165"]

/-- The inner loop body over one `time_slot` (src/main.py:674-700):
a dict slot contributes a record when its time field is truthy, a plain
string slot always contributes one, anything else is skipped. -/
def parse_time_slot (restaurant_id location_id : String) (time_slot : JValue) :
    List Slot :=
  match time_slot with
  | .obj _ =>
    let time_str :=
      pyOr (time_slot.get "time")
        (pyOr (time_slot.get "displayTime") (time_slot.get "timeSlot"))
    if time_str.truthy then
      let booking_url :=
        pyOr (time_slot.get "bookingUrl")
          (pyOr (time_slot.get "url")
            (.str (base_url ++ "/dining/reservation/" ++
              (time_slot.getD "id" (.str "")).pyStr)))
      [{ time := time_str, slot_id := time_slot.getD "id" (.str ""),
         url := booking_url, restaurant_id := restaurant_id,
         location_id := location_id }]
    else []
  | .str t =>
    [{ time := .str t, slot_id := .str (restaurant_id ++ "_" ++ t),
       url := .str (base_url ++ "/dining/reservation/?restaurant=" ++
         restaurant_id ++ "&time=" ++ t),
       restaurant_id := restaurant_id, location_id := location_id }]
  | _ => []

/-- The loop body over one `item` of `availability_data`
(src/main.py:659-700): only dict items whose id fields match the target
restaurant contribute time slots. -/
def parse_item (restaurant_id location_id : String) (item : JValue) :
    List Slot :=
  match item with
  | .obj _ =>
    let item_restaurant_id :=
      pyOr (item.get "restaurantId")
        (pyOr (item.get "facilityId") (item.get "id"))
    if item_restaurant_id.pyStr == restaurant_id then
      let times :=
        pyOr (item.get "availableTimes")
          (pyOr (item.get "times") (pyOr (item.get "slots") (.arr [])))
      match times with
      | .arr ts => ts.flatMap (parse_time_slot restaurant_id location_id)
      | _ => []
    else []
  | _ => []

/-- Parsing of one successfully decoded availability response
(src/main.py:649-718). The source's `elif isinstance(data, list)` branch at
line 703 is nested under `if isinstance(data, dict)` and can never fire, so a
non-dict response contributes nothing. -/
def extract_times (restaurant_id location_id : String) (data : JValue) :
    List Slot :=
  match data with
  | .obj _ =>
    let availability_data :=
      pyOr (data.get "availability")
        (pyOr (data.get "restaurants")
          (pyOr (data.get "results")
            (pyOr (data.get "offers") (pyOr (data.get "times") (.arr [])))))
    match availability_data with
    | .arr items => items.flatMap (parse_item restaurant_id location_id)
    | _ => []
  | _ => []

/-- Outcome of the HTTP request for one location inside
`check_availability`'s per-location `try` (src/main.py:615-741):
either the request raised, or it returned a status code together with the
result of `response.json()` (`Except.error` standing for a
`json.JSONDecodeError`, consulted only on status 200). -/
inductive LocResponse where
  | raised (e : PyExn)
  | http (status : Nat) (body : Except Unit JValue)

/-- A response from which the availability parser can extract nothing:
a raised request, a non-200 status, or a 200 whose JSON failed to decode. -/
def LocResponse.failed : LocResponse → Bool
  | .raised _ => true
  | .http status body =>
    status != 200 || (match body with | .error _ => true | .ok _ => false)

/-- What one iteration of the location loop adds to `available_times`
(src/main.py:640-741): exceptions are caught (`continue`), non-200 statuses
are only logged, JSON decode failures are caught and logged, and a decoded
200 response goes through the parser. -/
def check_location (restaurant_id location_id : String) (resp : LocResponse) :
    List Slot :=
  match resp with
  | .raised _ => []
  | .http status body =>
    if status == 200 then
      match body with
      | .error _ => []
      | .ok data => extract_times restaurant_id location_id data
    else []

/-- The location loop of `check_availability` (src/main.py:614-741):
locations are tried in order, and the loop breaks as soon as
`available_times` is non-empty (src/main.py:721-723). -/
def scan_locations (restaurant_id : String)
    (responses : String → LocResponse) : List String → List Slot
  | [] => []
  | location_id :: rest =>
    let found := check_location restaurant_id location_id
      (responses location_id)
    if found.isEmpty then scan_locations restaurant_id responses rest
    else found

/-- `DisneyWebScraper.check_availability` (src/main.py:547-752).
`responses` assigns to each location id the outcome of its HTTP request;
`outer_raised` is true when anything in the enclosing `try` (e.g. session
creation) raised, in which case the `except` at line 750 returns `[]`.
On success the collected times are truncated to the first 10
(src/main.py:745); with no times the result is `[]` (src/main.py:748). -/
def check_availability (restaurant_id : String)
    (responses : String → LocResponse) (outer_raised : Bool) : List Slot :=
  if outer_raised then []
  else
    let available_times := scan_locations restaurant_id responses
      all_location_ids
    if available_times.isEmpty then [] else available_times.take 10

/-- One row of the `dining_requests` table (src/main.py:781-795). -/
structure Request where
  id : Nat
  user_id : String
  location : String
  location_id : Option String
  restaurant_id : String
  restaurant_name : String
  party_size : Int
  requested_date : String
  meal_period : String
  created_at : Nat
  active : Bool
  deriving Repr, DecidableEq

/-- The columns of the `dining_requests` table, in the order declared by
`Database.init_db` (src/main.py:781-795). -/
def dining_requests_columns : List String :=
  ["id", "user_id", "location", "location_id", "restaurant_id",
   "restaurant_name", "party_size", "requested_date", "meal_period",
   "created_at", "active"]

/-- The sqlite database state: the rows of `dining_requests` in rowid order,
plus the next AUTOINCREMENT id. -/
structure DB where
  rows : List Request
  nextId : Nat
  deriving Repr, DecidableEq

namespace Database

/-- `Database.add_request` (src/main.py:807-821): a plain INSERT; the new row
gets the autoincrement id, the default `CURRENT_TIMESTAMP` (the `now`
parameter) and the default `active = 1`. No validation of any kind is
performed here. -/
def add_request (db : DB) (user_id location : String)
    (location_id : Option String) (restaurant_id restaurant_name : String)
    (party_size : Int) (requested_date meal_period : String) (now : Nat) :
    DB :=
  { rows := db.rows ++
      [{ id := db.nextId, user_id := user_id, location := location,
         location_id := location_id, restaurant_id := restaurant_id,
         restaurant_name := restaurant_name, party_size := party_size,
         requested_date := requested_date, meal_period := meal_period,
         created_at := now, active := true }],
    nextId := db.nextId + 1 }

/-- `Database.get_active_requests` (src/main.py:823-849):
`SELECT * FROM dining_requests WHERE active = 1`, a read-only snapshot. -/
def get_active_requests (db : DB) : List Request :=
  db.rows.filter (·.active)

/-- `Database.deactivate_request` (src/main.py:851-861):
`UPDATE dining_requests SET active = 0 WHERE id = ?`. -/
def deactivate_request (db : DB) (request_id : Nat) : DB :=
  { db with rows := db.rows.map (fun r =>
      if r.id = request_id then { r with active := false } else r) }

end Database

/-- Result of `self.get_user(int(request['user_id']))` plus the `if user:`
guard (src/main.py:1118-1119): the user resolved, resolved to `None`, or the
lookup (including the `int` conversion) raised. -/
inductive UserLookup where
  | found
  | notFound
  | raised (e : PyExn)

/-- Outcome of `await user.send(embed=embed)` (src/main.py:1140): the DM was
delivered, or the call raised (`PyExn.forbidden` standing for
`discord.Forbidden`). -/
inductive SendOutcome where
  | delivered
  | raised (e : PyExn)
  deriving Repr, DecidableEq

/-- Outcome of `check_availability` for one request: the returned slot list,
or an exception out of the call. -/
inductive CheckOutcome where
  | ok (availability : List Slot)
  | raised (e : PyExn)

/-- The external world one poll cycle runs against: for every request, the
outcome of its availability check, its `get_user` lookup and its DM send. -/
structure Env where
  check : Request → CheckOutcome
  user : Request → UserLookup
  send : Request → SendOutcome

namespace DisneyDiningBot

/-- The body of the per-request `try` in `availability_checker`
(src/main.py:1108-1145), returning the database state it leaves behind (or
the exception it raises) together with whether a DM send was attempted.
`user.send` raising `discord.Forbidden` is caught by the inner handler at
line 1144; any other exception propagates to the per-request handler.
Deactivation (line 1142) happens only after `user.send` returned. -/
def process_body (env : Env) (db : DB) (r : Request) :
    Except PyExn DB × Bool :=
  match env.check r with
  | .raised e => (.error e, false)
  | .ok availability =>
    if availability.isEmpty then (.ok db, false)
    else
      match env.user r with
      | .raised e => (.error e, false)
      | .notFound => (.ok db, false)
      | .found =>
        match env.send r with
        | .delivered => (.ok (Database.deactivate_request db r.id), true)
        | .raised e =>
          if e = PyExn.forbidden then (.ok db, true) else (.error e, true)

/-- One iteration of the request loop, with the `except Exception` handler of
src/main.py:1147-1148 wrapped around the body: an exception is logged and the
database is left as it was. -/
def process_request (env : Env) (db : DB) (r : Request) : DB :=
  match (process_body env db r).1 with
  | .ok db' => db'
  | .error _ => db

/-- The observable trace of one poll cycle: the final database, the snapshot
requests the loop iterated over, and the requests for which a DM send was
attempted. -/
structure CycleState where
  db : DB
  checked : List Request
  notified : List Request
  deriving Repr, DecidableEq

/-- One iteration of the request loop including its trace. -/
def cycle_step (env : Env) (s : CycleState) (r : Request) : CycleState :=
  { db := process_request env s.db r,
    checked := s.checked ++ [r],
    notified := s.notified ++
      (if (process_body env s.db r).2 then [r] else []) }

/-- One run of `DisneyDiningBot.availability_checker` (src/main.py:1102-1148):
snapshot the active requests once, then loop over the snapshot. -/
def availability_checker (env : Env) (db : DB) : CycleState :=
  (Database.get_active_requests db).foldl (cycle_step env)
    { db := db, checked := [], notified := [] }

/-- The available-times string content of the notification embed
(src/main.py:1132): the times of the first 5 slots, in source order. -/
def notified_times (availability : List Slot) : List JValue :=
  (availability.take 5).map (·.time)

end DisneyDiningBot

namespace PartyModal

end PartyModal

/-- An entry of the `comprehensive_fallback_data` dict in
`get_fallback_restaurants` (src/main.py:435-523). -/
structure RawRestaurant where
  rid : String
  name : String
  cuisine_type : String
  deriving Repr, DecidableEq

/-- A formatted restaurant record as returned by `get_restaurants` /
`get_fallback_restaurants` (src/main.py:534-543). -/
structure Restaurant where
  rid : String
  name : String
  location_id : String
  cuisine_type : String
  meal_periods : List String
  accepts_reservations : Bool
  deriving Repr, DecidableEq

/-- The `comprehensive_fallback_data` dict literal defined (and never read
again) at src/main.py:435-523, keyed by location id. -/
def comprehensive_fallback_data : List (String × List RawRestaurant) :=
  [("80007944",
    [⟨"be-our-guest-restaurant", "Be Our Guest Restaurant", "French"⟩,
     ⟨"cinderella-royal-table", "Cinderella\x27s Royal Table", "American"⟩,
     ⟨"crystal-palace", "The Crystal Palace", "American"⟩,
     ⟨"jungle-navigation-skipper-canteen",
      "Jungle Navigation Co. LTD Skipper Canteen", "Pan-Asian"⟩,
     ⟨"liberty-tree-tavern", "Liberty Tree Tavern", "American"⟩,
     ⟨"plaza-restaurant", "The Plaza Restaurant", "American"⟩,
     ⟨"tony-town-square-restaurant", "Tony\x27s Town Square Restaurant",
      "Italian"⟩,
     ⟨"dole-whip", "Aloha Isle", "Snacks"⟩]),
   ("80007838",
    [⟨"monsieur-paul", "Monsieur Paul", "French"⟩,
     ⟨"akershus-royal-banquet-hall", "Akershus Royal Banquet Hall",
      "Norwegian"⟩,
     ⟨"le-cellier-steakhouse", "Le Cellier Steakhouse", "Canadian"⟩,
     ⟨"spice-road-table", "Spice Road Table", "Mediterranean"⟩,
     ⟨"chefs-de-france", "Chefs de France", "French"⟩,
     ⟨"biergarten-restaurant", "Biergarten Restaurant", "German"⟩,
     ⟨"san-angel-inn-restaurante", "San Angel Inn Restaurante", "Mexican"⟩,
     ⟨"teppan-edo", "Teppan Edo", "Japanese"⟩,
     ⟨"tokyo-dining", "Tokyo Dining", "Japanese"⟩,
     ⟨"via-napoli-ristorante-e-pizzeria",
      "Via Napoli Ristorante e Pizzeria", "Italian"⟩,
     ⟨"garden-grill-restaurant", "Garden Grill Restaurant", "American"⟩,
     ⟨"coral-reef-restaurant", "Coral Reef Restaurant", "Seafood"⟩,
     ⟨"space-220-restaurant", "Space 220 Restaurant", "Contemporary"⟩]),
   ("80007998",
    [⟨"hollywood-brown-derby", "The Hollywood Brown Derby", "American"⟩,
     ⟨"sci-fi-dine-in-theater-restaurant",
      "Sci-Fi Dine-In Theater Restaurant", "American"⟩,
     ⟨"mama-melrose-ristorante-italiano",
      "Mama Melrose\x27s Ristorante Italiano", "Italian"⟩,
     ⟨"oga-cantina", "Oga\x27s Cantina", "Star Wars Themed"⟩,
     ⟨"hollywood-vine", "Hollywood & Vine", "American"⟩,
     ⟨"prime-time-cafe", "50\x27s Prime Time Café", "American"⟩,
     ⟨"docking-bay-7-food-and-cargo", "Docking Bay 7 Food and Cargo",
      "Star Wars Themed"⟩]),
   ("80007823",
    [⟨"tiffins", "Tiffins", "International"⟩,
     ⟨"tusker-house", "Tusker House Restaurant", "African-American"⟩,
     ⟨"yak-yeti-restaurant", "Yak & Yeti Restaurant", "Asian"⟩,
     ⟨"rainforest-cafe", "Rainforest Cafe", "American"⟩,
     ⟨"flame-tree-barbecue", "Flame Tree Barbecue", "Barbecue"⟩,
     ⟨"satu-li-canteen", "Satu\x27li Canteen", "Pandoran/Healthy"⟩]),
   ("80007875",
    [⟨"raglan-road", "Raglan Road Irish Pub and Restaurant", "Irish"⟩,
     ⟨"wine-bar-george", "Wine Bar George", "Wine Bar"⟩,
     ⟨"the-boathouse", "The BOATHOUSE", "Seafood"⟩,
     ⟨"chef-art-smiths-homecomin", "Chef Art Smith\x27s Homecomin\x27",
      "Southern"⟩,
     ⟨"morimoto-asia", "Morimoto Asia", "Pan-Asian"⟩,
     ⟨"city-works-eatery-pour-house", "City Works Eatery & Pour House",
      "American"⟩,
     ⟨"wolfgang-puck-bar-grill", "Wolfgang Puck Bar & Grill",
      "Contemporary"⟩,
     ⟨"amorettes-patisserie", "Amorette\x27s Patisserie",
      "French Pastries"⟩,
     ⟨"gideons-bakehouse", "Gideon\x27s Bakehouse", "Bakery"⟩]),
   ("80007617",
    [⟨"victoria-alberts", "Victoria & Albert\x27s",
      "Contemporary American"⟩,
     ⟨"citricos", "Citricos", "Contemporary American"⟩,
     ⟨"narcoossee", "Narcoossee\x27s", "Seafood"⟩,
     ⟨"1900-park-fare", "1900 Park Fare", "American"⟩,
     ⟨"grand-floridian-cafe", "Grand Floridian Café", "American"⟩]),
   ("80007668",
    [⟨"california-grill", "California Grill", "Contemporary American"⟩,
     ⟨"chef-mickeys", "Chef Mickey\x27s", "American"⟩,
     ⟨"steakhouse-71", "Steakhouse 71", "Steakhouse"⟩,
     ⟨"the-wave-restaurant-of-american-flavors",
      "The Wave... of American Flavors", "Contemporary American"⟩]),
   ("80007539",
    [⟨"ohana", "\x27Ohana", "Polynesian"⟩,
     ⟨"kona-cafe", "Kona Cafe", "Pacific Rim"⟩,
     ⟨"trader-sams-grog-grotto", "Trader Sam\x27s Grog Grotto",
      "Polynesian/Tiki"⟩,
     ⟨"capt-cooks", "Capt. Cook\x27s", "Quick Service"⟩])]

/-- Reading a Python local variable: `none` means the name has not been
assigned yet in the function body, which raises `UnboundLocalError`
(a subclass of `NameError`). -/
def readLocal {α : Type} (name : String) (env : Option α) : Except PyExn α :=
  match env with
  | some v => .ok v
  | none => .error (.nameError name)

/-- The generic restaurants built when `restaurants` is empty
(src/main.py:527-531). -/
def generic_restaurants (location_id : String) : List RawRestaurant :=
  [⟨location_id ++ "-signature-dining",
    "Signature Dining at " ++ location_id, "Fine Dining"⟩,
   ⟨location_id ++ "-table-service",
    "Table Service Restaurant at " ++ location_id, "American"⟩,
   ⟨location_id ++ "-quick-service", "Quick Service at " ++ location_id,
    "Quick Service"⟩]

/-- The formatting loop at src/main.py:534-543. -/
def format_restaurant (location_id : String) (r : RawRestaurant) :
    Restaurant :=
  { rid := r.rid, name := r.name, location_id := location_id,
    cuisine_type := r.cuisine_type,
    meal_periods := ["Breakfast", "Lunch", "Dinner"],
    accepts_reservations := true }

namespace DisneyWebScraper

/-- `DisneyWebScraper.get_fallback_restaurants` (src/main.py:433-545).
The body defines `comprehensive_fallback_data` (lines 435-523) and then, at
line 526, evaluates `if not restaurants:` — but the local `restaurants` is
first assigned only at line 527, so this read raises `UnboundLocalError`
(a `NameError`) on every call; the fallback table is never consulted and the
remaining statements never run. -/
def get_fallback_restaurants (location_id : String) :
    Except PyExn (List Restaurant) := do
  let _comprehensive_fallback_data := comprehensive_fallback_data
  let restaurants ← readLocal "restaurants"
    (none : Option (List RawRestaurant))
  let restaurants :=
    if restaurants.isEmpty then generic_restaurants location_id
    else restaurants
  return restaurants.map (format_restaurant location_id)

/-- `DisneyWebScraper.get_restaurants` (src/main.py:267-431).
`api` abstracts the facility-service API path (lines 276-422): `some rs`
when the API produced a non-empty reservable list `rs` (returned, truncated
to 25, at line 360), `none` for every failure path (non-200, JSON error,
empty parse, request exception), in which case line 426 falls back.
The `except` handler at line 429-431 calls `get_fallback_restaurants`
outside any further try, so an exception from that call propagates. -/
def get_restaurants (location_id : String)
    (api : Option (List Restaurant)) : Except PyExn (List Restaurant) :=
  let body : Except PyExn (List Restaurant) :=
    match api with
    | some reservation_restaurants => .ok (reservation_restaurants.take 25)
    | none => get_fallback_restaurants location_id
  match body with
  | .ok rs => .ok rs
  | .error _ => get_fallback_restaurants location_id

end DisneyWebScraper

/-- A sqlite cursor as the `myrequests` handlers use it: `results` holds the
rows produced by the last executed SELECT; a cursor on which no statement
has been executed yields no rows, so its `fetchall()` returns `[]`. -/
structure Cursor where
  results : List Request
  deriving Repr, DecidableEq

/-- `cursor.fetchall()`. -/
def Cursor.fetchall (c : Cursor) : List Request := c.results

/-- `cursor.execute('SELECT * FROM dining_requests WHERE user_id = ? AND
active = 1', (user_id,))` (src/Main.py:627-629). -/
def Cursor.execute_select_user_active (_c : Cursor) (db : DB)
    (user_id : String) : Cursor :=
  { results := db.rows.filter (fun r => r.user_id == user_id && r.active) }

/-- The reply a `myrequests` handler sends: either the "no active dining
requests" message or an embed with one field per row
(name `f"{request[5]} ({request[2]})"`, value built from columns 6-8). -/
inductive Reply where
  | noRequests
  | listing (fields : List (String × String))
  deriving Repr, DecidableEq

/-- One embed field for a row (src/main.py:1224-1228, src/Main.py:644-648). -/
def embed_field (r : Request) : String × String :=
  (r.restaurant_name ++ " (" ++ r.location ++ ")",
   "Party Size: " ++ toString r.party_size ++ "\nDate: " ++
     r.requested_date ++ "\nMeal: " ++ r.meal_period)

/-- The `myrequests` handler of src/main.py:1203-1230: a cursor is created
and `fetchall` is called on it at line 1211 without any `execute`, so
`requests` is always empty and the handler replies that there are no active
requests. The `user_id` computed at line 1206 is never used. -/
def my_requests_main_py (db : DB) (user_id : String) : Reply :=
  let _user_id := user_id
  let cursor : Cursor := { results := [] }
  let requests := cursor.fetchall
  if requests.isEmpty then Reply.noRequests
  else Reply.listing (requests.map embed_field)

/-- The `myrequests` handler of src/Main.py:619-650: it executes the
user-and-active SELECT before fetching. -/
def my_requests_Main_py (db : DB) (user_id : String) : Reply :=
  let cursor := Cursor.execute_select_user_active { results := [] } db
    user_id
  let requests := cursor.fetchall
  if requests.isEmpty then Reply.noRequests
  else Reply.listing (requests.map embed_field)

/-! ### Helper lemmas -/

namespace DisneyDiningBot

theorem process_request_of_not_delivered (env : Env) (db : DB) (r : Request)
    (h : env.send r ≠ SendOutcome.delivered) :
    process_request env db r = db := by
  unfold process_request process_body
  cases hc : env.check r with
  | raised e => rfl
  | ok availability =>
    by_cases he : availability.isEmpty
    · simp [he]
    · simp [he]
      cases hu : env.user r with
      | raised e => rfl
      | notFound => rfl
      | found =>
        cases hs : env.send r with
        | delivered => exact absurd hs h
        | raised e =>
          by_cases hf : e = PyExn.forbidden
          · simp [hf]
          · simp [hf]

theorem process_request_cases (env : Env) (db : DB) (r : Request) :
    process_request env db r = db ∨
      process_request env db r = Database.deactivate_request db r.id := by
  unfold process_request process_body
  cases hc : env.check r with
  | raised e => exact Or.inl rfl
  | ok availability =>
    by_cases he : availability.isEmpty
    · simp [he]
    · simp [he]
      cases hu : env.user r with
      | raised e => exact Or.inl rfl
      | notFound => exact Or.inl rfl
      | found =>
        cases hs : env.send r with
        | delivered => exact Or.inr rfl
        | raised e =>
          by_cases hf : e = PyExn.forbidden
          · simp [hf]
          · simp [hf]

theorem process_request_of_body_error (env : Env) (db : DB) (r : Request)
    (e : PyExn) (h : (process_body env db r).1 = Except.error e) :
    process_request env db r = db := by
  unfold process_request
  rw [h]

theorem foldl_checked (env : Env) (l : List Request) (s : CycleState) :
    (l.foldl (cycle_step env) s).checked = s.checked ++ l := by
  induction l generalizing s with
  | nil => simp
  | cons r rest ih =>
    rw [List.foldl_cons, ih]
    simp [cycle_step]

theorem foldl_notified_mem (env : Env) (l : List Request) (s : CycleState)
    (x : Request) (h : x ∈ (l.foldl (cycle_step env) s).notified) :
    x ∈ s.notified ∨ x ∈ l := by
  induction l generalizing s with
  | nil => exact Or.inl h
  | cons r rest ih =>
    rw [List.foldl_cons] at h
    rcases ih _ h with h1 | h1
    · simp only [cycle_step, List.mem_append] at h1
      rcases h1 with h2 | h2
      · exact Or.inl h2
      · by_cases hb : (process_body env s.db r).2
        · simp only [hb, if_true, List.mem_singleton] at h2
          subst h2
          exact Or.inr (List.mem_cons_self x rest)
        · simp [hb] at h2
    · exact Or.inr (List.mem_cons_of_mem r h1)

theorem checker_checked_eq (env : Env) (db : DB) :
    (availability_checker env db).checked =
      Database.get_active_requests db := by
  have h := foldl_checked env (Database.get_active_requests db)
    { db := db, checked := [], notified := [] }
  simpa [availability_checker] using h

theorem foldl_db_of_no_delivery (env : Env)
    (h : ∀ r', env.send r' ≠ SendOutcome.delivered)
    (l : List Request) (s : CycleState) :
    (l.foldl (cycle_step env) s).db = s.db := by
  induction l generalizing s with
  | nil => rfl
  | cons r rest ih =>
    rw [List.foldl_cons, ih]
    simp [cycle_step, process_request_of_not_delivered env s.db r (h r)]

end DisneyDiningBot

theorem deactivate_rows_evolve (db : DB) (rid : Nat) :
    ∀ r' ∈ (Database.deactivate_request db rid).rows,
      ∃ r ∈ db.rows, r' = r ∨ r' = { r with active := false } := by
  intro r' h
  simp only [Database.deactivate_request, List.mem_map] at h
  obtain ⟨r, hr, hrr⟩ := h
  refine ⟨r, hr, ?_⟩
  by_cases hid : r.id = rid
  · right
    rw [← hrr]
    simp [hid]
  · left
    rw [← hrr]
    simp [hid]

theorem evolve_step_trans (r0 r1 r2 : Request)
    (h01 : r1 = r0 ∨ r1 = { r0 with active := false })
    (h12 : r2 = r1 ∨ r2 = { r1 with active := false }) :
    r2 = r0 ∨ r2 = { r0 with active := false } := by
  rcases h01 with h01 | h01 <;> rcases h12 with h12 | h12 <;>
    subst h01 <;> subst h12 <;> simp

namespace DisneyDiningBot

theorem process_rows_evolve (env : Env) (db : DB) (r : Request) :
    ∀ r' ∈ (process_request env db r).rows,
      ∃ r0 ∈ db.rows, r' = r0 ∨ r' = { r0 with active := false } := by
  intro r' h
  rcases process_request_cases env db r with hp | hp
  · rw [hp] at h
    exact ⟨r', h, Or.inl rfl⟩
  · rw [hp] at h
    exact deactivate_rows_evolve db r.id r' h

theorem foldl_rows_evolve (env : Env) (l : List Request) (s : CycleState) :
    ∀ r' ∈ (l.foldl (cycle_step env) s).db.rows,
      ∃ r0 ∈ s.db.rows, r' = r0 ∨ r' = { r0 with active := false } := by
  induction l generalizing s with
  | nil => exact fun r' h => ⟨r', h, Or.inl rfl⟩
  | cons r rest ih =>
    intro r' h
    rw [List.foldl_cons] at h
    obtain ⟨r1, hr1, h1⟩ := ih (cycle_step env s r) r' h
    have hr1' : r1 ∈ (process_request env s.db r).rows := hr1
    obtain ⟨r0, hr0, h0⟩ := process_rows_evolve env s.db r r1 hr1'
    exact ⟨r0, hr0, evolve_step_trans r0 r1 r' h0 h1⟩

end DisneyDiningBot

/-! ### C1: resolution only after confirmed delivery -/

/-- C1. For every poll-cycle environment, database state and request: the
request loop changes the database only when the DM send returned
(was confirmed delivered); whenever the send raised instead, the database —
in particular every active flag — is unchanged, and if no send in the cycle
is confirmed the whole cycle leaves the database untouched, so the request
is picked up again by a later cycle's `active = 1` snapshot. -/
theorem resolution_requires_confirmed_delivery (env : Env) (db : DB)
    (r : Request) :
    (DisneyDiningBot.process_request env db r ≠ db →
      env.send r = SendOutcome.delivered) ∧
    (env.send r ≠ SendOutcome.delivered →
      DisneyDiningBot.process_request env db r = db) ∧
    ((∀ r', env.send r' ≠ SendOutcome.delivered) →
      (DisneyDiningBot.availability_checker env db).db = db) := by
  refine ⟨?_, ?_, ?_⟩
  · intro hne
    by_contra hnd
    exact hne (DisneyDiningBot.process_request_of_not_delivered env db r hnd)
  · exact DisneyDiningBot.process_request_of_not_delivered env db r
  · intro hall
    exact DisneyDiningBot.foldl_db_of_no_delivery env hall _ _

/-- Witness for C1 at a concrete input: a DM that raises
`discord.Forbidden` leaves the request row active and untouched. -/
theorem resolution_requires_confirmed_delivery_witness :
    DisneyDiningBot.process_request
      { check := fun _ => CheckOutcome.ok
          [{ time := JValue.str "6:30 PM", slot_id := JValue.str "x1",
             url := JValue.str "u", restaurant_id := "r1",
             location_id := "80007944" }],
        user := fun _ => UserLookup.found,
        send := fun _ => SendOutcome.raised PyExn.forbidden }
      { rows := [{ id := 1, user_id := "12345", location := "Magic Kingdom",
                   location_id := some "80007944", restaurant_id := "r1",
                   restaurant_name := "Be Our Guest Restaurant",
                   party_size := 4, requested_date := "2024-12-25",
                   meal_period := "Dinner", created_at := 0,
                   active := true }], nextId := 2 }
      { id := 1, user_id := "12345", location := "Magic Kingdom",
        location_id := some "80007944", restaurant_id := "r1",
        restaurant_name := "Be Our Guest Restaurant", party_size := 4,
        requested_date := "2024-12-25", meal_period := "Dinner",
        created_at := 0, active := true } =
    { rows := [{ id := 1, user_id := "12345", location := "Magic Kingdom",
                 location_id := some "80007944", restaurant_id := "r1",
                 restaurant_name := "Be Our Guest Restaurant",
                 party_size := 4, requested_date := "2024-12-25",
                 meal_period := "Dinner", created_at := 0,
                 active := true }], nextId := 2 } :=
  ((resolution_requires_confirmed_delivery _ _ _).2.1 (by simp))

/-! ### C5: the cycle is fault-isolating per request -/

/-- C5. Every poll cycle, whatever the per-request outcomes (success, empty
result, or raised exception anywhere in the check, user lookup or dispatch),
iterates over every request of the active snapshot — the `checked` trace is
exactly the snapshot — and a request whose body raises is caught by the
per-request handler and treated as no-match: the database is left as it was,
so the failure neither aborts the remaining requests nor escapes the cycle. -/
theorem cycle_fault_isolated (env : Env) (db : DB) :
    (DisneyDiningBot.availability_checker env db).checked =
      Database.get_active_requests db ∧
    (∀ d r e, (DisneyDiningBot.process_body env d r).1 = Except.error e →
      DisneyDiningBot.process_request env d r = d) := by
  constructor
  · exact DisneyDiningBot.checker_checked_eq env db
  · exact fun d r e h =>
      DisneyDiningBot.process_request_of_body_error env d r e h

/-- Witness for C5: a cycle over two active requests in which the first
check raises and the second DM raises still iterates over both requests and
leaves the database unchanged. -/
theorem cycle_fault_isolated_witness :
    (DisneyDiningBot.availability_checker
        { check := fun r => if r.id = 1 then
            CheckOutcome.raised (PyExn.other "timeout")
          else CheckOutcome.ok
            [{ time := JValue.str "6:30 PM", slot_id := JValue.str "x1",
               url := JValue.str "u", restaurant_id := "r2",
               location_id := "80007944" }],
          user := fun _ => UserLookup.found,
          send := fun _ => SendOutcome.raised (PyExn.other "http 500") }
        { rows := [{ id := 1, user_id := "1", location := "MK",
                     location_id := none, restaurant_id := "r1",
                     restaurant_name := "A", party_size := 2,
                     requested_date := "2024-12-25",
                     meal_period := "Dinner", created_at := 0,
                     active := true },
                   { id := 2, user_id := "2", location := "MK",
                     location_id := none, restaurant_id := "r2",
                     restaurant_name := "B", party_size := 2,
                     requested_date := "2024-12-25",
                     meal_period := "Dinner", created_at := 0,
                     active := true }], nextId := 3 }).checked =
      Database.get_active_requests
        { rows := [{ id := 1, user_id := "1", location := "MK",
                     location_id := none, restaurant_id := "r1",
                     restaurant_name := "A", party_size := 2,
                     requested_date := "2024-12-25",
                     meal_period := "Dinner", created_at := 0,
                     active := true },
                   { id := 2, user_id := "2", location := "MK",
                     location_id := none, restaurant_id := "r2",
                     restaurant_name := "B", party_size := 2,
                     requested_date := "2024-12-25",
                     meal_period := "Dinner", created_at := 0,
                     active := true }], nextId := 3 } :=
  (cycle_fault_isolated _ _).1

/-! ### C6: deactivate_request is idempotent -/

theorem deactivate_row_idem (rid : Nat) (r : Request) :
    (fun x : Request =>
      if x.id = rid then { x with active := false } else x)
      ((fun x : Request =>
        if x.id = rid then { x with active := false } else x) r) =
    (fun x : Request =>
      if x.id = rid then { x with active := false } else x) r := by
  by_cases h : r.id = rid <;> simp [h]

/-- C6. `deactivate_request` is idempotent: running the UPDATE twice yields
the same database as running it once; when every row with the given id is
already inactive the UPDATE matches only already-cleared rows and is a
complete no-op (it raises nothing and sends nothing — it only writes the
`active` column); and an inactive row is excluded from the `active = 1`
snapshot, so it can never be re-notified. -/
theorem deactivate_request_idempotent (db : DB) (rid : Nat) :
    Database.deactivate_request (Database.deactivate_request db rid) rid =
      Database.deactivate_request db rid ∧
    ((∀ r ∈ db.rows, r.id = rid → r.active = false) →
      Database.deactivate_request db rid = db) ∧
    (∀ r ∈ db.rows, r.active = false →
      r ∉ Database.get_active_requests db) := by
  refine ⟨?_, ?_, ?_⟩
  · simp only [Database.deactivate_request, List.map_map]
    congr 1
    apply List.map_congr_left
    intro r _
    exact deactivate_row_idem rid r
  · intro h
    have hmap : db.rows.map (fun r =>
        if r.id = rid then { r with active := false } else r) = db.rows := by
      conv_rhs => rw [← List.map_id db.rows]
      apply List.map_congr_left
      intro r hr
      by_cases hid : r.id = rid
      · have ha := h r hr hid
        cases r
        simp_all
      · simp [hid]
    simp only [Database.deactivate_request, hmap]
  · intro r hr ha hmem
    simp only [Database.get_active_requests, List.mem_filter] at hmem
    rw [ha] at hmem
    exact absurd hmem.2 (by simp)

/-- A database whose only row is already Resolved (`active = 0`). -/
def resolved_only_db : DB :=
  { rows := [{ id := 7, user_id := "12345", location := "EPCOT",
               location_id := some "80007838", restaurant_id := "r9",
               restaurant_name := "Space 220 Restaurant", party_size := 3,
               requested_date := "2024-12-25", meal_period := "Dinner",
               created_at := 0, active := false }], nextId := 8 }

/-- Witness for C6: on a database whose only row with id 7 is already
Resolved, a second `deactivate_request` is a complete no-op. -/
theorem deactivate_request_idempotent_witness :
    Database.deactivate_request resolved_only_db 7 = resolved_only_db :=
  (deactivate_request_idempotent resolved_only_db 7).2.1 (by decide)

/-! ### C2: the status is monotonic and Resolved rows are never polled -/

/-- C2. Every store operation moves status only Active-to-Resolved:
`add_request` appends one fresh Active row and leaves every existing row
byte-for-byte unchanged; `get_active_requests` mutates nothing and returns
only Active rows; `deactivate_request` maps each row to a row with the same
id whose flag is either unchanged or cleared Active-to-Resolved; and a
Resolved row is excluded from the `active = 1` snapshot, hence a poll cycle
neither checks it nor attempts a DM for it. -/
theorem status_monotonic (db : DB) (env : Env) (rid : Nat)
    (user_id location : String) (location_id : Option String)
    (restaurant_id restaurant_name : String) (party_size : Int)
    (requested_date meal_period : String) (now : Nat) :
    (∃ nr, (Database.add_request db user_id location location_id
        restaurant_id restaurant_name party_size requested_date meal_period
        now).rows = db.rows ++ [nr] ∧ nr.active = true) ∧
    (∀ r ∈ Database.get_active_requests db, r.active = true) ∧
    (∀ r' ∈ (Database.deactivate_request db rid).rows,
      ∃ r ∈ db.rows, r'.id = r.id ∧
        (r'.active = r.active ∨ (r.active = true ∧ r'.active = false))) ∧
    (∀ r ∈ db.rows, r.active = false →
      r ∉ Database.get_active_requests db ∧
      r ∉ (DisneyDiningBot.availability_checker env db).checked ∧
      r ∉ (DisneyDiningBot.availability_checker env db).notified) := by
  refine ⟨?_, ?_, ?_, ?_⟩
  · exact ⟨_, rfl, rfl⟩
  · intro r hr
    simpa [Database.get_active_requests] using
      (List.mem_filter.mp hr).2
  · intro r' h
    simp only [Database.deactivate_request, List.mem_map] at h
    obtain ⟨r, hr, hrr⟩ := h
    refine ⟨r, hr, ?_⟩
    by_cases hid : r.id = rid
    · cases hact : r.active
      · constructor
        · rw [← hrr]
          simp [hid, hact]
        · left
          rw [← hrr]
          simp [hid, hact]
      · constructor
        · rw [← hrr]
          simp [hid]
        · right
          rw [← hrr]
          simp [hid, hact]
    · rw [← hrr]
      simp [hid]
  · intro r hr ha
    have hsnap : r ∉ Database.get_active_requests db := by
      intro hmem
      simp only [Database.get_active_requests, List.mem_filter] at hmem
      rw [ha] at hmem
      exact absurd hmem.2 (by simp)
    refine ⟨hsnap, ?_, ?_⟩
    · intro hmem
      rw [DisneyDiningBot.checker_checked_eq env db] at hmem
      exact hsnap hmem
    · intro hmem
      simp only [DisneyDiningBot.availability_checker] at hmem
      rcases DisneyDiningBot.foldl_notified_mem env
        (Database.get_active_requests db)
        { db := db, checked := [], notified := [] } r hmem with h0 | h0
      · exact absurd h0 (by simp)
      · exact hsnap h0

/-- A Resolved row, used to instantiate C2. -/
def c2_row : Request :=
  { id := 3, user_id := "777", location := "EPCOT",
    location_id := some "80007838", restaurant_id := "r3",
    restaurant_name := "Teppan Edo", party_size := 2,
    requested_date := "2024-12-25", meal_period := "Lunch",
    created_at := 0, active := false }

/-- A database holding one Resolved row, used to instantiate C2. -/
def c2_db : DB := { rows := [c2_row], nextId := 4 }

/-- A cycle environment in which every check finds a match and every DM is
delivered, used to instantiate C2. -/
def c2_env : Env :=
  { check := fun _ => CheckOutcome.ok
      [{ time := JValue.str "6:30 PM", slot_id := JValue.str "x1",
         url := JValue.str "u", restaurant_id := "r3",
         location_id := "80007838" }],
    user := fun _ => UserLookup.found,
    send := fun _ => SendOutcome.delivered }

/-- Witness for C2: a Resolved row is absent from the snapshot of a cycle
that would match and notify everything, so it is neither checked nor
re-notified. -/
theorem status_monotonic_witness :
    c2_row ∉ Database.get_active_requests c2_db ∧
    c2_row ∉ (DisneyDiningBot.availability_checker c2_env c2_db).checked ∧
    c2_row ∉ (DisneyDiningBot.availability_checker c2_env c2_db).notified :=
  (status_monotonic c2_db c2_env 3 "777" "EPCOT" (some "80007838") "r3"
    "Teppan Edo" 2 "2024-12-25" "Lunch" 0).2.2.2 c2_row (by decide) rfl

/-! ### C4: there is no last_checked_at to update -/

/-- An Active request, used to instantiate C4. -/
def c4_row : Request :=
  { id := 1, user_id := "12345", location := "Magic Kingdom Park",
    location_id := some "80007944", restaurant_id := "r1",
    restaurant_name := "Be Our Guest Restaurant", party_size := 4,
    requested_date := "2024-12-25", meal_period := "Dinner",
    created_at := 0, active := true }

/-- A database holding one Active row, used to instantiate C4. -/
def c4_db : DB := { rows := [c4_row], nextId := 2 }

/-- A cycle environment in which every availability check returns no slots,
used to instantiate C4. -/
def c4_env : Env :=
  { check := fun _ => CheckOutcome.ok [],
    user := fun _ => UserLookup.found,
    send := fun _ => SendOutcome.delivered }

/-- Counterexample to C4 as stated: the `dining_requests` schema declared by
`Database.init_db` has no `last_checked_at` column at all (and the store has
no touch operation), and a concrete poll cycle that checks its one active
request (empty result) leaves the stored row — hence any timestamp it could
carry — completely unchanged. -/
theorem no_last_checked_at_column :
    "last_checked_at" ∉ dining_requests_columns ∧
    (DisneyDiningBot.availability_checker c4_env c4_db).checked = [c4_row] ∧
    (DisneyDiningBot.availability_checker c4_env c4_db).db = c4_db := by
  refine ⟨by decide, by decide, by decide⟩

/-- C4 as amended: the schema has no `last_checked_at` column, and a poll
cycle records no per-attempt timestamp — every row after a cycle is either
bit-for-bit the old row or the old row with only its `active` flag cleared
(after a delivered notification). -/
theorem cycle_updates_only_active_flag (env : Env) (db : DB) :
    "last_checked_at" ∉ dining_requests_columns ∧
    ∀ r' ∈ (DisneyDiningBot.availability_checker env db).db.rows,
      ∃ r ∈ db.rows, r' = r ∨ r' = { r with active := false } := by
  refine ⟨by decide, ?_⟩
  intro r' h
  simp only [DisneyDiningBot.availability_checker] at h
  exact DisneyDiningBot.foldl_rows_evolve env _ _ r' h

/-- Witness for the amended C4 at a concrete cycle. -/
theorem cycle_updates_only_active_flag_witness :
    ∃ r ∈ c4_db.rows, c4_row = r ∨ c4_row = { r with active := false } :=
  (cycle_updates_only_active_flag c4_env c4_db).2 c4_row (by decide)

/-! ### C3: where validation actually happens -/

theorem check_location_of_failed (rid loc : String) (resp : LocResponse)
    (h : resp.failed = true) : check_location rid loc resp = [] := by
  cases resp with
  | raised e => rfl
  | http status body =>
    simp only [LocResponse.failed] at h
    by_cases hs : status == 200
    · simp only [check_location, hs, if_true]
      cases body with
      | error u => rfl
      | ok data =>
        exfalso
        rw [Bool.or_eq_true] at h
        rcases h with h | h
        · simp only [beq_iff_eq] at hs
          simp only [bne_iff_ne] at h
          exact h hs
        · cases h
    · simp [check_location, hs]

theorem scan_locations_of_failed (rid : String)
    (responses : String → LocResponse) (l : List String)
    (h : ∀ loc ∈ l, (responses loc).failed = true) :
    scan_locations rid responses l = [] := by
  induction l with
  | nil => rfl
  | cons loc rest ih =>
    simp only [scan_locations]
    rw [check_location_of_failed rid loc (responses loc) (h loc (by simp))]
    simpa using ih (fun x hx => h x (List.mem_cons_of_mem loc hx))

/-- C7. When every location response has failed (the request raised, the
status was not 200, or the 200 body failed to JSON-decode) — or the whole
body raised — `check_availability` returns the empty slot list; a failed
location response never contributes a slot even among successes; and an
empty slot list makes the poll cycle treat the request exactly like
"no availability": the database is untouched and no notification happens. -/
theorem failed_check_returns_no_slots (restaurant_id : String)
    (responses : String → LocResponse) (outer_raised : Bool)
    (h : ∀ loc ∈ all_location_ids, (responses loc).failed = true) :
    check_availability restaurant_id responses outer_raised = [] ∧
    (∀ loc resp, LocResponse.failed resp = true →
      check_location restaurant_id loc resp = []) ∧
    (∀ env db r, env.check r = CheckOutcome.ok [] →
      DisneyDiningBot.process_request env db r = db) := by
  refine ⟨?_, ?_, ?_⟩
  · cases outer_raised with
    | true => rfl
    | false =>
      have hs := scan_locations_of_failed restaurant_id responses
        all_location_ids h
      simp [check_availability, hs]
  · exact fun loc resp hf =>
      check_location_of_failed restaurant_id loc resp hf
  · intro env db r hc
    unfold DisneyDiningBot.process_request DisneyDiningBot.process_body
    rw [hc]
    simp

/-- The all-failures response assignment used to instantiate C7. -/
def c7_responses (_loc : String) : LocResponse :=
  LocResponse.raised (PyExn.other "timeout")

/-- Witness for C7: with every location request raising, the check returns
the empty list. -/
theorem failed_check_returns_no_slots_witness :
    (∀ loc ∈ all_location_ids, (c7_responses loc).failed = true) ∧
    check_availability "be-our-guest-restaurant" c7_responses false = [] :=
  ⟨by decide, (failed_check_returns_no_slots "be-our-guest-restaurant"
    c7_responses false (by decide)).1⟩

/-! ### C8: the notified slots are an ordered bounded truncation -/

theorem process_request_availability_truncation (u : UserLookup)
    (s : SendOutcome) (db : DB) (r : Request) (a1 a2 : List Slot)
    (h1 : a1.isEmpty = false) (h2 : a2.isEmpty = false) :
    DisneyDiningBot.process_request
      { check := fun _ => CheckOutcome.ok a1, user := fun _ => u,
        send := fun _ => s } db r =
    DisneyDiningBot.process_request
      { check := fun _ => CheckOutcome.ok a2, user := fun _ => u,
        send := fun _ => s } db r := by
  unfold DisneyDiningBot.process_request DisneyDiningBot.process_body
  simp [h1, h2]

/-- C8. For a non-empty poll result: the result returned by
`check_availability` is a prefix (first at most 10, in source order) of the
slot list the location scan collected; the embed displays the first at most
5 of those — again a prefix, in the same order; and truncating the
availability list to the displayed 5 changes neither the dispatch outcome
nor the resulting database (in particular not whether the request is
deactivated), since the cycle inspects the list only for emptiness. -/
theorem notification_shows_ordered_truncation (restaurant_id : String)
    (responses : String → LocResponse) (db : DB) (r : Request)
    (u : UserLookup) (s : SendOutcome)
    (h : check_availability restaurant_id responses false ≠ []) :
    (∃ rest, scan_locations restaurant_id responses all_location_ids =
      check_availability restaurant_id responses false ++ rest) ∧
    (∃ rest, check_availability restaurant_id responses false =
      (check_availability restaurant_id responses false).take 5 ++ rest) ∧
    (DisneyDiningBot.notified_times
      (check_availability restaurant_id responses false)).length ≤ 5 ∧
    (check_availability restaurant_id responses false).length ≤ 10 ∧
    DisneyDiningBot.process_request
        { check := fun _ => CheckOutcome.ok
            (check_availability restaurant_id responses false),
          user := fun _ => u, send := fun _ => s } db r =
      DisneyDiningBot.process_request
        { check := fun _ => CheckOutcome.ok
            ((check_availability restaurant_id responses false).take 5),
          user := fun _ => u, send := fun _ => s } db r := by
  have hA : check_availability restaurant_id responses false =
      (scan_locations restaurant_id responses all_location_ids).take 10 := by
    by_cases hs : (scan_locations restaurant_id responses
        all_location_ids).isEmpty
    · exact absurd (by simp [check_availability, hs]) h
    · simp [check_availability, hs]
  refine ⟨?_, ?_, ?_, ?_, ?_⟩
  · rw [hA]
    exact ⟨_, (List.take_append_drop 10 _).symm⟩
  · exact ⟨_, (List.take_append_drop 5 _).symm⟩
  · simp only [DisneyDiningBot.notified_times, List.length_map]
    have := List.length_take 5
      (check_availability restaurant_id responses false)
    omega
  · rw [hA]
    have := List.length_take 10
      (scan_locations restaurant_id responses all_location_ids)
    omega
  · apply process_request_availability_truncation
    · cases hAc : check_availability restaurant_id responses false with
      | nil => exact absurd hAc h
      | cons a t => simp
    · cases hAc : check_availability restaurant_id responses false with
      | nil => exact absurd hAc h
      | cons a t => simp [hAc]

/-- A decoded availability response carrying one matching slot, used to
instantiate C8. -/
def c8_data : JValue :=
  .obj [("availability", .arr
    [.obj [("restaurantId", .str "r1"),
           ("availableTimes", .arr [.str "6:30 PM"])]])]

/-- The response assignment giving every location the decoded `c8_data`. -/
def c8_responses (_loc : String) : LocResponse :=
  LocResponse.http 200 (Except.ok c8_data)

/-- The slot that `check_availability "r1" c8_responses false` collects from
the first scanned location. -/
def c8_slot : Slot :=
  { time := .str "6:30 PM", slot_id := .str "r1_6:30 PM",
    url := .str (base_url ++
      "/dining/reservation/?restaurant=r1&time=6:30 PM"),
    restaurant_id := "r1", location_id := "80007944" }

/-- Witness for C8 at a concrete non-empty poll result. -/
theorem notification_shows_ordered_truncation_witness :
    check_availability "r1" c8_responses false ≠ [] ∧
    (DisneyDiningBot.notified_times
      (check_availability "r1" c8_responses false)).length ≤ 5 :=
  ⟨by simp [show check_availability "r1" c8_responses false = [c8_slot]
      from rfl],
   (notification_shows_ordered_truncation "r1" c8_responses
      { rows := [], nextId := 1 }
      { id := 1, user_id := "42", location := "MK", location_id := none,
        restaurant_id := "r1", restaurant_name := "A", party_size := 2,
        requested_date := "2024-12-25", meal_period := "Dinner",
        created_at := 0, active := true }
      UserLookup.found SendOutcome.delivered
      (by simp [show check_availability "r1" c8_responses false = [c8_slot]
        from rfl])).2.2.1⟩

/-! ### C9: the fallback restaurant path always raises -/

/-- C9. For every location id, `get_fallback_restaurants` raises a
`NameError` — the local `restaurants` is read at line 526 before any
assignment, so `comprehensive_fallback_data` is never consulted — and
therefore `get_restaurants`, whose exception handler re-calls
`get_fallback_restaurants` outside any try, propagates that exception
whenever its facility-service API path fails instead of returning the
documented fallback list. -/
theorem get_fallback_restaurants_raises_name_error (location_id : String) :
    DisneyWebScraper.get_fallback_restaurants location_id =
      Except.error (PyExn.nameError "restaurants") ∧
    DisneyWebScraper.get_restaurants location_id none =
      Except.error (PyExn.nameError "restaurants") :=
  ⟨rfl, rfl⟩

/-! ### C10: the myrequests handler of src/main.py never finds rows -/

/-- C10. In src/main.py the `myrequests` handler calls `fetchall` on a
cursor on which no statement was executed, so for every database state and
user it replies that there are no active dining requests; the src/Main.py
revision of the same handler, which does execute the
`user_id = ? AND active = 1` SELECT, answers with a listing whenever such
rows exist. -/
theorem myrequests_always_reports_none (db : DB) (user_id : String)
    (h : db.rows.filter (fun r => r.user_id == user_id && r.active) ≠ []) :
    my_requests_main_py db user_id = Reply.noRequests ∧
    my_requests_Main_py db user_id ≠ Reply.noRequests := by
  refine ⟨rfl, ?_⟩
  intro hc
  unfold my_requests_Main_py at hc
  simp only [Cursor.execute_select_user_active, Cursor.fetchall] at hc
  cases hl : db.rows.filter (fun r => r.user_id == user_id && r.active) with
  | nil => exact h hl
  | cons a t =>
    rw [hl] at hc
    simp at hc

/-- A database holding one active row for user 42, used to instantiate
C10. -/
def c10_db : DB :=
  { rows := [{ id := 1, user_id := "42", location := "EPCOT",
               location_id := some "80007838", restaurant_id := "r5",
               restaurant_name := "Le Cellier Steakhouse", party_size := 2,
               requested_date := "2024-12-25", meal_period := "Dinner",
               created_at := 0, active := true }], nextId := 2 }

/-- Witness for C10: even with an active row for the invoking user in the
database, the src/main.py handler replies that there are none. -/
theorem myrequests_always_reports_none_witness :
    c10_db.rows.filter (fun r => r.user_id == "42" && r.active) ≠ [] ∧
    my_requests_main_py c10_db "42" = Reply.noRequests :=
  ⟨by decide, (myrequests_always_reports_none c10_db "42" (by decide)).1⟩


end DisneyAlerts
